import Mathlib

/-!
Verification of the dd-sdk-mini-program adapter layer.

The repository wraps the DingTalk mini-program host API (`dd.*`, a
callback-based interface) into promise-returning functions.  We embed the
data-level behaviour of the adapter shallowly:

* `JSVal` models JavaScript values (JSON-like universe; numbers as `Int`).
* Objects are insertion-ordered association lists; `jsGet`/`jsSet` model
  property read and property assignment (assignment replaces the value of an
  existing key in place, otherwise appends, matching JS key ordering).
* `jsTruthy` models JavaScript truthiness of the values representable here.
* `jsonStringify` models `JSON.stringify`.
* `getHeaders`, `httpRequestPre`, `httpRequestHostConfig`,
  `showToastHostConfig`, `showLoadingHostConfig` are translated from the
  corresponding source functions.
* `promisify` models the recurring `new Promise((resolve, reject) =>
  dd.X({..., success, fail: reject}))` pattern: the outcome of the returned
  promise as a function of which completion callback the host invokes.
-/

namespace DDSdk

/-- JavaScript values, as far as the adapter's data paths need them:
`undefined`, `null`, booleans, numbers (integral; no float behaviour is
exercised by the adapter), strings, arrays and plain objects.  Objects are
insertion-ordered association lists of string keys. -/
inductive JSVal : Type where
  | undefined : JSVal
  | null : JSVal
  | bool : Bool → JSVal
  | num : Int → JSVal
  | str : String → JSVal
  | arr : List JSVal → JSVal
  | obj : List (String × JSVal) → JSVal

/-- Property read on an object's field list: the value at the first
occurrence of the key, `undefined` when the key is absent. -/
def jsGet : List (String × JSVal) → String → JSVal
  | [], _ => JSVal.undefined
  | p :: rest, k => if p.1 = k then p.2 else jsGet rest k

/-- Property assignment on an object's field list: replaces the value at an
existing key in place (JS keeps the original insertion position of a
re-assigned key), otherwise appends the new key at the end. -/
def jsSet : List (String × JSVal) → String → JSVal → List (String × JSVal)
  | [], k, v => [(k, v)]
  | p :: rest, k, v => if p.1 = k then (k, v) :: rest else p :: jsSet rest k v

/-- Property read on an arbitrary value: field lookup on objects; on the
primitives the adapter reads (only ever with host-typed objects) the
property is absent, hence `undefined`. -/
def jsGetV : JSVal → String → JSVal
  | JSVal.obj fields, k => jsGet fields k
  | _, _ => JSVal.undefined

/-- Property assignment on an arbitrary value: field update on objects; on
primitives a (sloppy-mode) property write is a no-op. -/
def jsSetV : JSVal → String → JSVal → JSVal
  | JSVal.obj fields, k, v => JSVal.obj (jsSet fields k v)
  | w, _, _ => w

/-- JavaScript truthiness of the values representable in `JSVal`:
`undefined`, `null`, `false`, `0` and `""` are falsy, everything else is
truthy. -/
def jsTruthy : JSVal → Bool
  | JSVal.undefined => false
  | JSVal.null => false
  | JSVal.bool b => b
  | JSVal.num n => n != 0
  | JSVal.str s => s != ""
  | JSVal.arr _ => true
  | JSVal.obj _ => true

/-- `Object.assign(target, source)` on the contents of the target object:
copies the own enumerable properties of the source left to right.  An object
source contributes its fields; an array source contributes its elements
under their decimal index keys; a string source contributes its characters
under their index keys; `null`, `undefined` and the remaining primitives
contribute nothing. -/
def objAssign (target : List (String × JSVal)) : JSVal → List (String × JSVal)
  | JSVal.obj fields => fields.foldl (fun acc p => jsSet acc p.1 p.2) target
  | JSVal.arr elems =>
      (elems.enum.map (fun p => (toString p.1, p.2))).foldl
        (fun acc p => jsSet acc p.1 p.2) target
  | JSVal.str s =>
      (s.data.enum.map (fun p => (toString p.1, JSVal.str (String.singleton p.2)))).foldl
        (fun acc p => jsSet acc p.1 p.2) target
  | _ => target

/-- `getHeaders` from the source ("专为处理钉钉 httpRequest 问题"): if the
input is an array, fold `Object.assign` over its elements into a fresh empty
object and return it; otherwise return the input unchanged. -/
def getHeaders : JSVal → JSVal
  | JSVal.arr elems => JSVal.obj (elems.foldl objAssign [])
  | v => v

/-- The fold `getHeaders` performs on a list of key/value entries (each
wrapped as a single-key object in the input array): left-to-right property
assignment into an initially empty object. -/
def foldHeaders (ms : List (String × JSVal)) : List (String × JSVal) :=
  ms.foldl (fun acc p => jsSet acc p.1 p.2) []

/-- Modelled from the spec's words, for comparison with the source-derived
fold: a left-to-right merge in which a later entry's value for a key
overwrites an earlier entry's value for the same key. -/
def specMergeLastWins (ms : List (String × JSVal)) (k : String) : JSVal :=
  ms.foldl (fun acc p => if p.1 = k then p.2 else acc) JSVal.undefined

/-- Lower-case hexadecimal digit, as used by `JSON.stringify`'s escape
sequences for control characters. -/
def hexDigit (n : Nat) : Char :=
  if n < 10 then Char.ofNat (48 + n) else Char.ofNat (87 + n)

/-- The escaping `JSON.stringify` applies to one character of a string:
quote and backslash are backslash-escaped, the named control characters use
their short escapes, other control characters use a `\u00XX` escape, and
every other character is emitted verbatim. -/
def jsonEscapeChar (c : Char) : String :=
  if c = '"' then "\\\""
  else if c = '\\' then "\\\\"
  else if c = '\n' then "\\n"
  else if c = '\r' then "\\r"
  else if c = '\t' then "\\t"
  else if c = '\x08' then "\\b"
  else if c = '\x0c' then "\\f"
  else if c.toNat < 32 then
    "\\u00" ++ String.mk [hexDigit (c.toNat / 16), hexDigit (c.toNat % 16)]
  else String.singleton c

/-- String-body escaping of `JSON.stringify`. -/
def jsonEscape (s : String) : String :=
  String.join (s.data.map jsonEscapeChar)

mutual

/-- `JSON.stringify`, partially: `none` models the `undefined` result (for
an `undefined` top-level value).  Objects drop `undefined`-valued fields;
arrays render `undefined` elements as `null`, as JS does. -/
def jsonStringifyAux : JSVal → Option String
  | JSVal.undefined => none
  | JSVal.null => some "null"
  | JSVal.bool b => some (if b then "true" else "false")
  | JSVal.num n => some (toString n)
  | JSVal.str s => some ("\"" ++ jsonEscape s ++ "\"")
  | JSVal.arr elems =>
      some ("[" ++ String.intercalate "," (jsonStringifyElems elems) ++ "]")
  | JSVal.obj fields =>
      some ("\x7b" ++ String.intercalate "," (jsonStringifyFields fields) ++ "\x7d")

/-- Rendering of the elements of a JSON array: `undefined` becomes
`null`. -/
def jsonStringifyElems : List JSVal → List String
  | [] => []
  | v :: rest => ((jsonStringifyAux v).getD "null") :: jsonStringifyElems rest

/-- Rendering of the fields of a JSON object: `undefined`-valued fields are
dropped. -/
def jsonStringifyFields : List (String × JSVal) → List String
  | [] => []
  | (k, v) :: rest =>
      match jsonStringifyAux v with
      | some s => ("\"" ++ jsonEscape k ++ "\":" ++ s) :: jsonStringifyFields rest
      | none => jsonStringifyFields rest

end

/-- `JSON.stringify` as a `JSVal`-to-`JSVal` operation, as it is used in
`httpRequest` (`data = JSON.stringify(data)`): a string result, or
`undefined` when the input is `undefined`. -/
def jsonStringify (v : JSVal) : JSVal :=
  match jsonStringifyAux v with
  | some s => JSVal.str s
  | none => JSVal.undefined

/-- The two values `httpRequest`'s preamble hands to the host: the headers
object and the (possibly JSON-encoded) request body. -/
structure HttpPre where
  headers : JSVal
  data : JSVal

/-- The preamble of `httpRequest`, translated from

```
let { headers = {}, data, ...rest } = opt;
if (!headers["Content-Type"]) {
  headers["Content-Type"] = "application/json";
  data = JSON.stringify(data);
}
```

`headers0` is the value destructured from `opt.headers` (after the `= {}`
default) and `data0` the value of `opt.data`.  The assignment
`headers["Content-Type"] = "application/json"` writes into the very object
the caller supplied (no copy is made), so when the caller passed a headers
object the `headers` component below is simultaneously the headers value
forwarded to the host and the contents of the caller's own object after the
call returns. -/
def httpRequestPre (headers0 data0 : JSVal) : HttpPre :=
  if jsTruthy (jsGetV headers0 "Content-Type") then ⟨headers0, data0⟩
  else ⟨jsSetV headers0 "Content-Type" (JSVal.str "application/json"),
        jsonStringify data0⟩

/-- The data fields of the configuration object `httpRequest` passes to
`dd.httpRequest`: `{ headers, data, success: ..., fail: reject, ...rest }`,
where `rest` is `opt` without its `headers` and `data` fields.  The
`success`/`fail` callbacks are modelled separately by `httpRequestOutcome`.
-/
def httpRequestHostConfig (opt : List (String × JSVal)) : List (String × JSVal) :=
  let headers0 := match jsGet opt "headers" with
    | JSVal.undefined => JSVal.obj []
    | v => v
  let pre := httpRequestPre headers0 (jsGet opt "data")
  let rest := opt.filter (fun p => p.1 != "headers" && p.1 != "data")
  ("headers", pre.headers) :: ("data", pre.data) :: rest

/-- The configuration `showToast` (part_002 revision) passes to
`dd.showToast`: destructuring defaults `type = 'none'` and
`duration = 2000` apply when the corresponding field is absent
(`undefined`), and `content`, `type`, `duration` are forwarded. -/
def showToastHostConfig (opt : List (String × JSVal)) : List (String × JSVal) :=
  let ty := match jsGet opt "type" with
    | JSVal.undefined => JSVal.str "none"
    | v => v
  let dur := match jsGet opt "duration" with
    | JSVal.undefined => JSVal.num 2000
    | v => v
  [("content", jsGet opt "content"), ("type", ty), ("duration", dur)]

/-- The configuration `showLoading` (part_002 revision) passes to
`dd.showLoading`: destructuring default `delay = 0` applies when the field
is absent, and `content`, `delay` are forwarded. -/
def showLoadingHostConfig (opt : List (String × JSVal)) : List (String × JSVal) :=
  let dl := match jsGet opt "delay" with
    | JSVal.undefined => JSVal.num 0
    | v => v
  [("content", jsGet opt "content"), ("delay", dl)]

/-- Which completion callback the host invokes for one adapter call, and
with what payload.  Per the host contract exactly one of the two fires, at
most once. -/
inductive HostCompletion : Type where
  | success : JSVal → HostCompletion
  | fail : JSVal → HostCompletion

/-- The settled state of the promise an adapter function returns. -/
inductive Outcome : Type where
  | resolved : JSVal → Outcome
  | rejected : JSVal → Outcome

/-- The recurring wrapper pattern
`new Promise((resolve, reject) => dd.X({..., success: ..., fail: reject}))`:
on host success the promise resolves with the success handler's projection
of the payload; on host failure it rejects with the reason passed to
`reject`, untouched. -/
def promisify (proj : JSVal → JSVal) : HostCompletion → Outcome
  | HostCompletion.success p => Outcome.resolved (proj p)
  | HostCompletion.fail r => Outcome.rejected r

/-- `alert`: `success: resolve`, `fail: reject`. -/
def alertOutcome : HostCompletion → Outcome := promisify (fun p => p)

/-- `confirm`: `success: resolve`, `fail: reject`. -/
def confirmOutcome : HostCompletion → Outcome := promisify (fun p => p)

/-- `showToast`: `success: resolve`, `fail: reject`. -/
def showToastOutcome : HostCompletion → Outcome := promisify (fun p => p)

/-- `showLoading`: `success: resolve`, `fail: reject`. -/
def showLoadingOutcome : HostCompletion → Outcome := promisify (fun p => p)

/-- `showActionSheet`: `success: (res) => resolve(res.index)`,
`fail: reject`. -/
def showActionSheetOutcome : HostCompletion → Outcome :=
  promisify (fun res => jsGetV res "index")

/-- `getAuthCode`: `success(res) { resolve(res.authCode) }`, `fail: reject`. -/
def getAuthCodeOutcome : HostCompletion → Outcome :=
  promisify (fun res => jsGetV res "authCode")

/-- `httpRequest`: `success: (res) => { res.headers = getHeaders(res.headers);
resolve(res); }`, `fail: reject`. -/
def httpRequestOutcome : HostCompletion → Outcome :=
  promisify (fun res => jsSetV res "headers" (getHeaders (jsGetV res "headers")))

/-- `uploadFile`: `success: (res) => resolve(res)`, `fail: reject`. -/
def uploadFileOutcome : HostCompletion → Outcome := promisify (fun p => p)

/-- `downloadFile`: `success: (res) => resolve(res)`, `fail: reject`. -/
def downloadFileOutcome : HostCompletion → Outcome := promisify (fun p => p)

/-- `redirectTo`: `success: resolve`, `fail: reject`. -/
def redirectToOutcome : HostCompletion → Outcome := promisify (fun p => p)

/-- `navigateTo`: `success: resolve`, `fail: reject`. -/
def navigateToOutcome : HostCompletion → Outcome := promisify (fun p => p)

/-- `reLaunch`: `success: resolve`, `fail: reject`. -/
def reLaunchOutcome : HostCompletion → Outcome := promisify (fun p => p)

/-- `setNavigationBar`: `success: resolve`, `fail: reject`. -/
def setNavigationBarOutcome : HostCompletion → Outcome := promisify (fun p => p)

/-- `switchTab`: `success: resolve`, `fail: reject`. -/
def switchTabOutcome : HostCompletion → Outcome := promisify (fun p => p)

/-- `datePicker`: `success(res) { resolve(res.date) }`, `fail: reject`. -/
def datePickerOutcome : HostCompletion → Outcome :=
  promisify (fun res => jsGetV res "date")

/-- `getLocation`: `success: (res) => resolve(res)`, `fail: reject`. -/
def getLocationOutcome : HostCompletion → Outcome := promisify (fun p => p)

/-- `openLocation`: `success: resolve`, `fail: reject`. -/
def openLocationOutcome : HostCompletion → Outcome := promisify (fun p => p)

/-- `scan`: `success: (res) => resolve(res)`, `fail: reject`. -/
def scanOutcome : HostCompletion → Outcome := promisify (fun p => p)

/-- `complexChoose`: `success: (res) => resolve(res)`, `fail: reject`. -/
def complexChooseOutcome : HostCompletion → Outcome := promisify (fun p => p)

/-- `chooseDepartments`: `success: (res) => resolve(res)`, `fail: reject`. -/
def chooseDepartmentsOutcome : HostCompletion → Outcome := promisify (fun p => p)

/-- `createGroupChat`: `success: (res) => resolve(res.id)`, `fail: reject`. -/
def createGroupChatOutcome : HostCompletion → Outcome :=
  promisify (fun res => jsGetV res "id")

/-- `choosePhonebook`: `success: (res) => resolve(res)`, `fail: reject`. -/
def choosePhonebookOutcome : HostCompletion → Outcome := promisify (fun p => p)

/-- `chooseExternalUsers`: `success: (res) => resolve(res)`, `fail: reject`. -/
def chooseExternalUsersOutcome : HostCompletion → Outcome := promisify (fun p => p)

/-- `editExternalUser`: `success: (res) => resolve(res)`, `fail: reject`. -/
def editExternalUserOutcome : HostCompletion → Outcome := promisify (fun p => p)

/-- `chooseUserFromList`: `success: (res) => resolve(res)`, `fail: reject`. -/
def chooseUserFromListOutcome : HostCompletion → Outcome := promisify (fun p => p)

/-- `setStorage`: `success: resolve`, `fail: reject`. -/
def setStorageOutcome : HostCompletion → Outcome := promisify (fun p => p)

/-- `getStorage`: `success: (res) => resolve(res.data)`, `fail: reject`. -/
def getStorageOutcome : HostCompletion → Outcome :=
  promisify (fun res => jsGetV res "data")

/-- `removeStorage`: `success: resolve`, `fail: reject`. -/
def removeStorageOutcome : HostCompletion → Outcome := promisify (fun p => p)

theorem jsGet_jsSet_same (f : List (String × JSVal)) (k : String) (v : JSVal) :
    jsGet (jsSet f k v) k = v := by
  induction f with
  | nil => simp [jsSet, jsGet]
  | cons p rest ih =>
    by_cases h : p.1 = k
    · simp [jsSet, jsGet, h]
    · simp [jsSet, jsGet, h, ih]

theorem jsGet_jsSet_ne (f : List (String × JSVal)) (k k' : String) (v : JSVal)
    (hne : k' ≠ k) : jsGet (jsSet f k' v) k = jsGet f k := by
  induction f with
  | nil => simp [jsSet, jsGet, hne]
  | cons p rest ih =>
    by_cases h : p.1 = k'
    · simp [jsSet, jsGet, h, hne]
    · simp only [jsSet, jsGet, if_neg h]
      exact if_congr Iff.rfl rfl ih

theorem jsGet_foldl_set (ms : List (String × JSVal))
    (acc : List (String × JSVal)) (k : String) :
    jsGet (ms.foldl (fun a p => jsSet a p.1 p.2) acc) k
      = ms.foldl (fun r p => if p.1 = k then p.2 else r) (jsGet acc k) := by
  induction ms generalizing acc with
  | nil => rfl
  | cons p rest ih =>
    simp only [List.foldl_cons]
    rw [ih]
    by_cases h : p.1 = k
    · rw [if_pos h, h, jsGet_jsSet_same]
    · rw [if_neg h, jsGet_jsSet_ne _ _ _ _ h]

theorem getHeaders_singletons (ms : List (String × JSVal)) :
    getHeaders (JSVal.arr (ms.map fun p => JSVal.obj [p]))
      = JSVal.obj (foldHeaders ms) := by
  simp only [getHeaders, foldHeaders, List.foldl_map]
  rfl

/-- C1: the header normalizer `getHeaders`, applied to a sequence of
single-key mappings, folds them into one mapping by a left-to-right merge
(`foldHeaders`) in which a later entry's value for a key overwrites an
earlier entry's value for the same key (`specMergeLastWins`); applied to an
input that is already a single (non-sequence) mapping it returns it
unchanged; and it is idempotent on every input.  The final two conjuncts
are the spec's concrete examples. -/
theorem getHeaders_merge_pass_idem :
    (∀ ms : List (String × JSVal),
      getHeaders (JSVal.arr (ms.map fun p => JSVal.obj [p]))
        = JSVal.obj (foldHeaders ms)) ∧
    (∀ (ms : List (String × JSVal)) (k : String),
      jsGet (foldHeaders ms) k = specMergeLastWins ms k) ∧
    (∀ fields : List (String × JSVal),
      getHeaders (JSVal.obj fields) = JSVal.obj fields) ∧
    (∀ v : JSVal, getHeaders (getHeaders v) = getHeaders v) ∧
    getHeaders (JSVal.arr [JSVal.obj [("A", JSVal.str "1")],
        JSVal.obj [("B", JSVal.str "2")]])
      = JSVal.obj [("A", JSVal.str "1"), ("B", JSVal.str "2")] ∧
    getHeaders (JSVal.arr [JSVal.obj [("A", JSVal.str "1")],
        JSVal.obj [("A", JSVal.str "2")]])
      = JSVal.obj [("A", JSVal.str "2")] := by
  refine ⟨getHeaders_singletons, ?_, fun fields => rfl, ?_, rfl, rfl⟩
  · intro ms k
    unfold foldHeaders specMergeLastWins
    rw [jsGet_foldl_set]
    rfl
  · intro v
    cases v <;> rfl

/-- C3: when the host invokes `httpRequest`'s success callback with response
`res`, the promise resolves with the full response whose `headers` field has
been replaced by the normalized mapping `getHeaders res.headers`; every
other field of `res` is unchanged. -/
theorem httpRequest_success_normalizes :
    ∀ fields : List (String × JSVal),
      httpRequestOutcome (HostCompletion.success (JSVal.obj fields))
        = Outcome.resolved (JSVal.obj
            (jsSet fields "headers" (getHeaders (jsGet fields "headers")))) ∧
      jsGet (jsSet fields "headers" (getHeaders (jsGet fields "headers"))) "headers"
        = getHeaders (jsGet fields "headers") ∧
      (∀ k : String, k ≠ "headers" →
        jsGet (jsSet fields "headers" (getHeaders (jsGet fields "headers"))) k
          = jsGet fields k) := by
  intro fields
  exact ⟨rfl, jsGet_jsSet_same _ _ _,
    fun k hk => jsGet_jsSet_ne _ _ _ _ (Ne.symm hk)⟩

theorem httpRequest_success_normalizes_witness :
    ("status" : String) ≠ "headers" ∧
    jsGet (jsSet [("data", JSVal.str "ok"), ("status", JSVal.num 200),
        ("headers", JSVal.arr [JSVal.obj [("A", JSVal.str "1")]])] "headers"
        (getHeaders (jsGet [("data", JSVal.str "ok"), ("status", JSVal.num 200),
          ("headers", JSVal.arr [JSVal.obj [("A", JSVal.str "1")]])] "headers"))) "status"
      = jsGet [("data", JSVal.str "ok"), ("status", JSVal.num 200),
          ("headers", JSVal.arr [JSVal.obj [("A", JSVal.str "1")]])] "status" :=
  ⟨by decide,
   (httpRequest_success_normalizes [("data", JSVal.str "ok"), ("status", JSVal.num 200),
      ("headers", JSVal.arr [JSVal.obj [("A", JSVal.str "1")]])]).2.2 "status" (by decide)⟩

/-- C4: for every wrapped asynchronous adapter operation, if the host
invokes the fail callback with reason `r`, the returned promise rejects
with exactly `r`, unchanged — none of the adapters inspect, translate,
retry or swallow the reason. -/
theorem fail_rejects_reason_unchanged :
    ∀ r : JSVal,
      alertOutcome (HostCompletion.fail r) = Outcome.rejected r ∧
      confirmOutcome (HostCompletion.fail r) = Outcome.rejected r ∧
      showToastOutcome (HostCompletion.fail r) = Outcome.rejected r ∧
      showLoadingOutcome (HostCompletion.fail r) = Outcome.rejected r ∧
      showActionSheetOutcome (HostCompletion.fail r) = Outcome.rejected r ∧
      getAuthCodeOutcome (HostCompletion.fail r) = Outcome.rejected r ∧
      httpRequestOutcome (HostCompletion.fail r) = Outcome.rejected r ∧
      uploadFileOutcome (HostCompletion.fail r) = Outcome.rejected r ∧
      downloadFileOutcome (HostCompletion.fail r) = Outcome.rejected r ∧
      redirectToOutcome (HostCompletion.fail r) = Outcome.rejected r ∧
      navigateToOutcome (HostCompletion.fail r) = Outcome.rejected r ∧
      reLaunchOutcome (HostCompletion.fail r) = Outcome.rejected r ∧
      setNavigationBarOutcome (HostCompletion.fail r) = Outcome.rejected r ∧
      switchTabOutcome (HostCompletion.fail r) = Outcome.rejected r ∧
      datePickerOutcome (HostCompletion.fail r) = Outcome.rejected r ∧
      getLocationOutcome (HostCompletion.fail r) = Outcome.rejected r ∧
      openLocationOutcome (HostCompletion.fail r) = Outcome.rejected r ∧
      scanOutcome (HostCompletion.fail r) = Outcome.rejected r ∧
      complexChooseOutcome (HostCompletion.fail r) = Outcome.rejected r ∧
      chooseDepartmentsOutcome (HostCompletion.fail r) = Outcome.rejected r ∧
      createGroupChatOutcome (HostCompletion.fail r) = Outcome.rejected r ∧
      choosePhonebookOutcome (HostCompletion.fail r) = Outcome.rejected r ∧
      chooseExternalUsersOutcome (HostCompletion.fail r) = Outcome.rejected r ∧
      editExternalUserOutcome (HostCompletion.fail r) = Outcome.rejected r ∧
      chooseUserFromListOutcome (HostCompletion.fail r) = Outcome.rejected r ∧
      setStorageOutcome (HostCompletion.fail r) = Outcome.rejected r ∧
      getStorageOutcome (HostCompletion.fail r) = Outcome.rejected r ∧
      removeStorageOutcome (HostCompletion.fail r) = Outcome.rejected r :=
  fun _ => ⟨rfl, rfl, rfl, rfl, rfl, rfl, rfl, rfl, rfl, rfl, rfl, rfl, rfl,
    rfl, rfl, rfl, rfl, rfl, rfl, rfl, rfl, rfl, rfl, rfl, rfl, rfl, rfl, rfl⟩

/-- C5: when the host invokes `showActionSheet`'s success callback with a
payload carrying an `index` field, the promise resolves with the extracted
index itself (not the full payload); in particular an index of `-1` (cancel
or backdrop dismissal) resolves the promise successfully with `-1` and is
not turned into a rejection. -/
theorem showActionSheet_resolves_index :
    (∀ fields : List (String × JSVal),
      showActionSheetOutcome (HostCompletion.success (JSVal.obj fields))
        = Outcome.resolved (jsGet fields "index")) ∧
    showActionSheetOutcome (HostCompletion.success
        (JSVal.obj [("index", JSVal.num (-1))]))
      = Outcome.resolved (JSVal.num (-1)) ∧
    (∀ r : JSVal,
      showActionSheetOutcome (HostCompletion.success
          (JSVal.obj [("index", JSVal.num (-1))]))
        ≠ Outcome.rejected r) :=
  ⟨fun _ => rfl, rfl, fun _ h => Outcome.noConfusion h⟩

/-- C7: when the host invokes `getStorage`'s success callback with payload
`res`, the promise resolves with exactly the extracted `res.data` field;
when the host supplies a `null` marker for an absent key, it is passed
through verbatim with no default substituted. -/
theorem getStorage_resolves_data :
    (∀ fields : List (String × JSVal),
      getStorageOutcome (HostCompletion.success (JSVal.obj fields))
        = Outcome.resolved (jsGet fields "data")) ∧
    getStorageOutcome (HostCompletion.success (JSVal.obj [("data", JSVal.null)]))
      = Outcome.resolved JSVal.null :=
  ⟨fun _ => rfl, rfl⟩

/-- C8: when the host invokes `createGroupChat`'s success callback with
payload `res`, the promise resolves with exactly the extracted `res.id`
field as the host supplies it (per the documented return type, a list of
strings), not the full payload and not a value coerced to a single
identifier. -/
theorem createGroupChat_resolves_id :
    (∀ fields : List (String × JSVal),
      createGroupChatOutcome (HostCompletion.success (JSVal.obj fields))
        = Outcome.resolved (jsGet fields "id")) ∧
    createGroupChatOutcome (HostCompletion.success
        (JSVal.obj [("id", JSVal.arr [JSVal.str "g1", JSVal.str "g2"])]))
      = Outcome.resolved (JSVal.arr [JSVal.str "g1", JSVal.str "g2"]) ∧
    (∀ fields : List (String × JSVal),
      createGroupChatOutcome (HostCompletion.success (JSVal.obj fields))
        ≠ Outcome.resolved (JSVal.obj fields)
        ∨ jsGet fields "id" = JSVal.obj fields) :=
  ⟨fun _ => rfl, rfl, fun fields => by
    by_cases h : jsGet fields "id" = JSVal.obj fields
    · exact Or.inr h
    · exact Or.inl (fun heq => h (Outcome.resolved.inj heq))⟩

/-- C2: for every `httpRequest` call whose headers mapping has no explicit
content-type entry, the configuration forwarded to the host carries headers
with `Content-Type` set to `application/json` and a `data` field equal to
the JSON-encoded text of the caller's data; for every call whose headers
carry an explicit non-JSON content-type entry, the data field is forwarded
untouched.  The last conjunct covers calls with no headers field at all. -/
theorem httpRequest_json_default :
    ∀ (u m : JSVal) (f : List (String × JSVal)) (d : JSVal),
      (jsGet f "Content-Type" = JSVal.undefined →
        jsGetV (jsGet (httpRequestHostConfig [("url", u), ("method", m),
            ("headers", JSVal.obj f), ("data", d)]) "headers") "Content-Type"
          = JSVal.str "application/json" ∧
        jsGet (httpRequestHostConfig [("url", u), ("method", m),
            ("headers", JSVal.obj f), ("data", d)]) "data" = jsonStringify d) ∧
      (∀ s : String, jsGet f "Content-Type" = JSVal.str s → s ≠ "" →
          s ≠ "application/json" →
        jsGet (httpRequestHostConfig [("url", u), ("method", m),
            ("headers", JSVal.obj f), ("data", d)]) "data" = d ∧
        jsGet (httpRequestHostConfig [("url", u), ("method", m),
            ("headers", JSVal.obj f), ("data", d)]) "headers" = JSVal.obj f) ∧
      (jsGetV (jsGet (httpRequestHostConfig [("url", u), ("method", m),
            ("data", d)]) "headers") "Content-Type"
          = JSVal.str "application/json" ∧
       jsGet (httpRequestHostConfig [("url", u), ("method", m),
            ("data", d)]) "data" = jsonStringify d) := by
  intro u m f d
  refine ⟨?_, ?_, rfl, rfl⟩
  · intro h
    have hpre : httpRequestPre (JSVal.obj f) d
        = ⟨JSVal.obj (jsSet f "Content-Type" (JSVal.str "application/json")),
           jsonStringify d⟩ := by
      simp [httpRequestPre, jsGetV, h, jsTruthy, jsSetV]
    constructor
    · show jsGetV (httpRequestPre (JSVal.obj f) d).headers "Content-Type"
        = JSVal.str "application/json"
      rw [hpre]
      show jsGet (jsSet f "Content-Type" (JSVal.str "application/json")) "Content-Type"
        = JSVal.str "application/json"
      exact jsGet_jsSet_same _ _ _
    · show (httpRequestPre (JSVal.obj f) d).data = jsonStringify d
      rw [hpre]
  · intro s hs hne _hnj
    have ht : jsTruthy (jsGetV (JSVal.obj f) "Content-Type") = true := by
      show jsTruthy (jsGet f "Content-Type") = true
      rw [hs]
      simp [jsTruthy, hne]
    have hpre : httpRequestPre (JSVal.obj f) d = ⟨JSVal.obj f, d⟩ := by
      simp [httpRequestPre, ht]
    constructor
    · show (httpRequestPre (JSVal.obj f) d).data = d
      rw [hpre]
    · show (httpRequestPre (JSVal.obj f) d).headers = JSVal.obj f
      rw [hpre]

theorem httpRequest_json_default_witness :
    (jsGet ([] : List (String × JSVal)) "Content-Type" = JSVal.undefined ∧
     (jsGetV (jsGet (httpRequestHostConfig [("url", JSVal.str "https://e.com"),
          ("method", JSVal.str "POST"), ("headers", JSVal.obj []),
          ("data", JSVal.obj [("x", JSVal.num 1)])]) "headers") "Content-Type"
        = JSVal.str "application/json" ∧
      jsGet (httpRequestHostConfig [("url", JSVal.str "https://e.com"),
          ("method", JSVal.str "POST"), ("headers", JSVal.obj []),
          ("data", JSVal.obj [("x", JSVal.num 1)])]) "data"
        = jsonStringify (JSVal.obj [("x", JSVal.num 1)]))) ∧
    jsonStringify (JSVal.obj [("x", JSVal.num 1)]) = JSVal.str "\x7b\"x\":1\x7d" ∧
    (jsGet [("Content-Type", JSVal.str "text/plain")] "Content-Type"
        = JSVal.str "text/plain" ∧
     ("text/plain" : String) ≠ "" ∧
     ("text/plain" : String) ≠ "application/json" ∧
     (jsGet (httpRequestHostConfig [("url", JSVal.str "https://e.com"),
          ("method", JSVal.str "POST"),
          ("headers", JSVal.obj [("Content-Type", JSVal.str "text/plain")]),
          ("data", JSVal.str "payload")]) "data" = JSVal.str "payload" ∧
      jsGet (httpRequestHostConfig [("url", JSVal.str "https://e.com"),
          ("method", JSVal.str "POST"),
          ("headers", JSVal.obj [("Content-Type", JSVal.str "text/plain")]),
          ("data", JSVal.str "payload")]) "headers"
        = JSVal.obj [("Content-Type", JSVal.str "text/plain")])) :=
  ⟨⟨rfl, (httpRequest_json_default (JSVal.str "https://e.com") (JSVal.str "POST")
      [] (JSVal.obj [("x", JSVal.num 1)])).1 rfl⟩,
   rfl,
   rfl, by decide, by decide,
   (httpRequest_json_default (JSVal.str "https://e.com") (JSVal.str "POST")
      [("Content-Type", JSVal.str "text/plain")] (JSVal.str "payload")).2.1
      "text/plain" rfl (by decide) (by decide)⟩

/-- C6: a `showToast` call (part_002 revision) with no `type` field and no
`duration` field forwards `type = "none"` and `duration = 2000` to the
host; a `showLoading` call with no `delay` field forwards `delay = 0`. -/
theorem showToast_showLoading_defaults :
    ∀ optT optL : List (String × JSVal),
      (jsGet optT "type" = JSVal.undefined →
        jsGet (showToastHostConfig optT) "type" = JSVal.str "none") ∧
      (jsGet optT "duration" = JSVal.undefined →
        jsGet (showToastHostConfig optT) "duration" = JSVal.num 2000) ∧
      (jsGet optL "delay" = JSVal.undefined →
        jsGet (showLoadingHostConfig optL) "delay" = JSVal.num 0) := by
  intro optT optL
  refine ⟨fun h => ?_, fun h => ?_, fun h => ?_⟩
  · have e : jsGet (showToastHostConfig optT) "type"
        = (match jsGet optT "type" with
           | JSVal.undefined => JSVal.str "none"
           | v => v) := rfl
    rw [e, h]
  · have e : jsGet (showToastHostConfig optT) "duration"
        = (match jsGet optT "duration" with
           | JSVal.undefined => JSVal.num 2000
           | v => v) := rfl
    rw [e, h]
  · have e : jsGet (showLoadingHostConfig optL) "delay"
        = (match jsGet optL "delay" with
           | JSVal.undefined => JSVal.num 0
           | v => v) := rfl
    rw [e, h]

theorem showToast_showLoading_defaults_witness :
    jsGet [("content", JSVal.str "hi")] "type" = JSVal.undefined ∧
    jsGet [("content", JSVal.str "hi")] "duration" = JSVal.undefined ∧
    jsGet ([] : List (String × JSVal)) "delay" = JSVal.undefined ∧
    jsGet (showToastHostConfig [("content", JSVal.str "hi")]) "type"
      = JSVal.str "none" ∧
    jsGet (showToastHostConfig [("content", JSVal.str "hi")]) "duration"
      = JSVal.num 2000 ∧
    jsGet (showLoadingHostConfig []) "delay" = JSVal.num 0 :=
  ⟨rfl, rfl, rfl,
   (showToast_showLoading_defaults [("content", JSVal.str "hi")] []).1 rfl,
   (showToast_showLoading_defaults [("content", JSVal.str "hi")] []).2.1 rfl,
   (showToast_showLoading_defaults [("content", JSVal.str "hi")] []).2.2 rfl⟩

/-- C9: when the caller passes a headers object with no truthy
`Content-Type` entry, `httpRequest`'s preamble writes the `Content-Type`
key into that very object (no copy is made — see `httpRequestPre`), so the
caller's own object has changed after the call; when a truthy
`Content-Type` entry is present, the caller's object is left unchanged. -/
theorem httpRequest_mutates_caller_headers :
    ∀ (f : List (String × JSVal)) (d : JSVal),
      (jsTruthy (jsGet f "Content-Type") = false →
        (httpRequestPre (JSVal.obj f) d).headers
          = JSVal.obj (jsSet f "Content-Type" (JSVal.str "application/json")) ∧
        (httpRequestPre (JSVal.obj f) d).headers ≠ JSVal.obj f) ∧
      (jsTruthy (jsGet f "Content-Type") = true →
        (httpRequestPre (JSVal.obj f) d).headers = JSVal.obj f) := by
  intro f d
  constructor
  · intro h
    have hpre : (httpRequestPre (JSVal.obj f) d).headers
        = JSVal.obj (jsSet f "Content-Type" (JSVal.str "application/json")) := by
      simp [httpRequestPre, jsGetV, h, jsSetV]
    refine ⟨hpre, ?_⟩
    rw [hpre]
    intro heq
    have hfields : jsSet f "Content-Type" (JSVal.str "application/json") = f := by
      injection heq
    have h1 : jsGet (jsSet f "Content-Type" (JSVal.str "application/json"))
        "Content-Type" = JSVal.str "application/json" := jsGet_jsSet_same _ _ _
    rw [hfields] at h1
    rw [h1] at h
    exact absurd h (by decide)
  · intro h
    simp [httpRequestPre, jsGetV, h]

theorem httpRequest_mutates_caller_headers_witness :
    (jsTruthy (jsGet ([] : List (String × JSVal)) "Content-Type") = false ∧
     ((httpRequestPre (JSVal.obj []) (JSVal.str "b")).headers
        = JSVal.obj [("Content-Type", JSVal.str "application/json")] ∧
      (httpRequestPre (JSVal.obj []) (JSVal.str "b")).headers
        ≠ JSVal.obj [])) ∧
    (jsTruthy (jsGet [("Content-Type", JSVal.str "text/html")] "Content-Type")
        = true ∧
     (httpRequestPre (JSVal.obj [("Content-Type", JSVal.str "text/html")])
        (JSVal.str "b")).headers
        = JSVal.obj [("Content-Type", JSVal.str "text/html")]) :=
  ⟨⟨rfl, (httpRequest_mutates_caller_headers [] (JSVal.str "b")).1 rfl⟩,
   ⟨rfl, (httpRequest_mutates_caller_headers
      [("Content-Type", JSVal.str "text/html")] (JSVal.str "b")).2 rfl⟩⟩

/-- C10: `httpRequest`'s content-type presence test is exactly the
truthiness of the entry at the literal key `Content-Type`: a content-type
supplied under a differently-cased key (first conjunct) or with an
empty-string value (second conjunct) is treated as absent, so the adapter
still sets `Content-Type` to `application/json` and JSON-encodes the body;
a non-empty value at the literal key is treated as present (third
conjunct). -/
theorem httpRequest_content_type_literal_key :
    ∀ (v d : JSVal) (s : String),
      httpRequestPre (JSVal.obj [("content-type", v)]) d
        = ⟨JSVal.obj [("content-type", v),
              ("Content-Type", JSVal.str "application/json")],
           jsonStringify d⟩ ∧
      httpRequestPre (JSVal.obj [("Content-Type", JSVal.str "")]) d
        = ⟨JSVal.obj [("Content-Type", JSVal.str "application/json")],
           jsonStringify d⟩ ∧
      (s ≠ "" →
        httpRequestPre (JSVal.obj [("Content-Type", JSVal.str s)]) d
          = ⟨JSVal.obj [("Content-Type", JSVal.str s)], d⟩) := by
  intro v d s
  refine ⟨rfl, rfl, fun hs => ?_⟩
  have ht : jsTruthy (jsGetV (JSVal.obj [("Content-Type", JSVal.str s)])
      "Content-Type") = true := by
    show jsTruthy (JSVal.str s) = true
    simp [jsTruthy, hs]
  simp [httpRequestPre, ht]

theorem httpRequest_content_type_literal_key_witness :
    ("text/plain" : String) ≠ "" ∧
    httpRequestPre (JSVal.obj [("Content-Type", JSVal.str "text/plain")])
        (JSVal.str "b")
      = ⟨JSVal.obj [("Content-Type", JSVal.str "text/plain")], JSVal.str "b"⟩ :=
  ⟨by decide,
   (httpRequest_content_type_literal_key (JSVal.str "x") (JSVal.str "b")
      "text/plain").2.2 (by decide)⟩

end DDSdk
